import Mathlib

/-!
Verification of the tree-inventory dashboard data pipeline
(`src/dashboard.py` of ingeosmart/aeropuerto).

The Python source is shallowly embedded: a pandas DataFrame becomes a
`List` of rows, NaN/NaT become `Option.none`, numeric columns become `ℚ`,
and functions that can raise become `Except String`.
-/

/-- Split a character list at every occurrence of `sep`, keeping empty
pieces; models Python `str.split(sep)` for a one-character separator
(also the behaviour of `pd.Series.str.split`). Always returns at least
one piece. -/
def splitOnChar (sep : Char) : List Char → List (List Char)
  | [] => [[]]
  | c :: cs =>
    match splitOnChar sep cs with
    | [] => [[]]
    | p :: ps => if c = sep then [] :: p :: ps else (c :: p) :: ps

/-- `str.split` on a `String`, via `splitOnChar`. -/
def pySplit (sep : Char) (s : String) : List String :=
  (splitOnChar sep s.toList).map List.asString

/-- Value of a list of decimal digit characters. -/
def digitsToNat (l : List Char) : Nat :=
  l.foldl (fun a c => a * 10 + (c.toNat - 48)) 0

/-- All characters are decimal digits and the list is non-empty. -/
def allDigits (l : List Char) : Bool :=
  !l.isEmpty && l.all Char.isDigit

/-- Days in a month, Gregorian rules, as validated by `strptime`. -/
def daysInMonth (m y : Nat) : Nat :=
  if m = 2 then
    if (y % 4 = 0 && y % 100 ≠ 0) || y % 400 = 0 then 29 else 28
  else if m = 4 || m = 6 || m = 9 || m = 11 then 30
  else 31

/-- A calendar date: day, month, year. -/
structure Date where
  day : Nat
  month : Nat
  year : Nat
deriving DecidableEq, Repr

/-- Models `pd.to_datetime(s, format='%d/%m/%Y', errors='coerce')` on one
string: exact match of the whole string (any trailing text, e.g. a time
suffix, fails), day and month of one or two digits, year of up to four
digits, calendar-validated; failure gives `none` (NaT). -/
def parseDateDMY (s : String) : Option Date :=
  match splitOnChar '/' s.toList with
  | [ds, ms, ys] =>
    if allDigits ds && ds.length ≤ 2 && allDigits ms && ms.length ≤ 2 &&
       allDigits ys && ys.length ≤ 4 then
      let d := digitsToNat ds
      let m := digitsToNat ms
      let y := digitsToNat ys
      if 1 ≤ m && m ≤ 12 && 1 ≤ d && d ≤ daysInMonth m y && 1 ≤ y then
        some ⟨d, m, y⟩
      else none
    else none
  | _ => none

/-- Zero-pad a numeral to two digits (`strftime` `%d`, `%m`). -/
def pad2 (n : Nat) : String :=
  if n < 10 then "0" ++ toString n else toString n

/-- Zero-pad a year to four digits (`strftime` `%Y`). -/
def pad4 (n : Nat) : String :=
  if n < 10 then "000" ++ toString n
  else if n < 100 then "00" ++ toString n
  else if n < 1000 then "0" ++ toString n
  else toString n

/-- `date.strftime('%d/%m')`: the coarse day/month grouping key. -/
def dateKeyOf (dt : Date) : String :=
  pad2 dt.day ++ "/" ++ pad2 dt.month

/-- `date.strftime('%d/%m/%Y')`, used in the map marker popup. -/
def fmtDMY (dt : Date) : String :=
  pad2 dt.day ++ "/" ++ pad2 dt.month ++ "/" ++ pad4 dt.year

/-- Models `str.replace(',', '.')` character-wise. -/
def replaceCommaDot (s : String) : String :=
  (s.toList.map (fun c => if c = ',' then '.' else c)).asString

/-- Parse an unsigned dot-decimal numeral from characters. -/
def parseUnsignedQ (l : List Char) : Option ℚ :=
  match splitOnChar '.' l with
  | [a] => if allDigits a then some (digitsToNat a) else none
  | [a, b] =>
    if !(a.isEmpty && b.isEmpty) && a.all Char.isDigit && b.all Char.isDigit
    then some ((digitsToNat a : ℚ) + (digitsToNat b : ℚ) / (10 : ℚ) ^ b.length)
    else none
  | _ => none

/-- Models `pd.to_numeric(s, errors='coerce')` on a dot-decimal string:
optional leading minus, digits with at most one dot; failure gives `none`
(NaN). -/
def parseNumQ (s : String) : Option ℚ :=
  match s.toList with
  | '-' :: rest => (parseUnsignedQ rest).map Neg.neg
  | l => parseUnsignedQ l

/-- One raw CSV record as read by `pd.read_csv`: every field is a string
column whose missing entries are NaN (`none`). -/
structure RawRow where
  NombreEtiqueta : Option String
  cuadricula : Option String
  lat : Option String
  long : Option String
  Fecha : Option String
  Operador : Option String
deriving DecidableEq, Repr

/-- One processed observation row, after the column transforms of
`load_data`. -/
structure Row where
  NombreEtiqueta : Option String
  Etiquetas : Option (List String)
  Cantidad_Etiquetas : Option Nat
  cuadricula : Option String
  lat : Option ℚ
  long : Option ℚ
  Fecha : Option Date
  Fecha_DM : Option String
  Operador : Option String
deriving DecidableEq, Repr

/-- The per-row column transforms of `load_data` (dashboard.py:83-88):
decimal-comma coordinates coerced to numbers with failures as NaN, date
parsed with `%d/%m/%Y` with failures as NaT, labels split on `,`, label
count, and the `%d/%m` date key (NaT gives NaN). -/
def mkRow (r : RawRow) : Row :=
  let fecha := r.Fecha.bind parseDateDMY
  { NombreEtiqueta := r.NombreEtiqueta
    Etiquetas := r.NombreEtiqueta.map (pySplit ',')
    Cantidad_Etiquetas := (r.NombreEtiqueta.map (pySplit ',')).map List.length
    cuadricula := r.cuadricula
    lat := r.lat.bind (fun s => parseNumQ (replaceCommaDot s))
    long := r.long.bind (fun s => parseNumQ (replaceCommaDot s))
    Fecha := fecha
    Fecha_DM := fecha.map dateKeyOf
    Operador := r.Operador }

/-- `load_data` (dashboard.py:79-93) on an already-read table.  A null
`NombreEtiqueta` makes `df['Etiquetas'].apply(len)` raise a `TypeError`
(`len` of NaN), which the `except` turns into `None`; otherwise rows are
transformed and `df.dropna(subset=['lat', 'long'])` drops every row whose
coordinate coercion failed. -/
def load_data (raws : List RawRow) : Option (List Row) :=
  if raws.all (fun r => r.NombreEtiqueta.isSome) then
    some ((raws.map mkRow).filter (fun r => r.lat.isSome && r.long.isSome))
  else none

/-- Python truthiness of an optional string: `None` and `''` are falsy. -/
def strTruthy : Option String → Bool
  | none => false
  | some s => !s.isEmpty

/-- Row predicate for `df['cuadricula'].isin(sel)`: NaN is never a
member. -/
def cuadriculaIsin (sel : List String) (r : Row) : Bool :=
  match r.cuadricula with
  | some c => sel.contains c
  | none => false

/-- Row predicate for `df['Fecha_DM'] == fecha`: NaN compares unequal to
every string. -/
def fechaDMEq (fecha : String) (r : Row) : Bool :=
  r.Fecha_DM = some fecha

/-- `apply_filters` (dashboard.py:168-174): the grid filter runs only when
the selection list is truthy (non-empty) and the date filter only when the
selected key is truthy (neither `None` nor the empty string). -/
def apply_filters (df : List Row) (cuadricula_seleccionada : List String)
    (fecha_seleccionada : Option String) : List Row :=
  let df1 :=
    if !cuadricula_seleccionada.isEmpty then
      df.filter (cuadriculaIsin cuadricula_seleccionada)
    else df
  if strTruthy fecha_seleccionada then
    df1.filter (fun r => fechaDMEq (fecha_seleccionada.getD "") r)
  else df1

/-- One `folium.CircleMarker` of the map (dashboard.py:105-114). -/
structure Marker where
  location : Option ℚ × Option ℚ
  popup : String
  tooltip : Option String
deriving DecidableEq, Repr

/-- The map specification produced by `create_map`. -/
structure MapSpec where
  location : ℚ × ℚ
  zoom_start : Nat
  markers : List Marker
deriving DecidableEq, Repr

/-- Render an optional string the way a Python f-string renders NaN. -/
def fmtOptStr : Option String → String
  | none => "nan"
  | some s => s

/-- Build one row's marker; `row['Fecha'].strftime('%d/%m/%Y')` raises
`ValueError` on NaT, so a null date fails. -/
def rowMarker (r : Row) : Except String Marker :=
  match r.Fecha with
  | none => Except.error "NaTType does not support strftime"
  | some dt =>
    Except.ok
      { location := (r.lat, r.long)
        popup := "Etiqueta: " ++ fmtOptStr r.NombreEtiqueta ++
          "<br>Cuadricula: " ++ fmtOptStr r.cuadricula ++
          "<br>Fecha: " ++ fmtDMY dt
        tooltip := r.NombreEtiqueta }

/-- `df['lat'].mean()`: pandas skips NaN entries. -/
def colMean (xs : List (Option ℚ)) : ℚ :=
  let vs := xs.filterMap id
  vs.sum / vs.length

/-- The `for idx, row in df.iterrows()` marker loop: markers are added in
row order and the loop raises at the first row whose date is NaT. -/
def buildMarkers : List Row → Except String (List Marker)
  | [] => Except.ok []
  | r :: rs =>
    match rowMarker r with
    | Except.error e => Except.error e
    | Except.ok m =>
      match buildMarkers rs with
      | Except.error e => Except.error e
      | Except.ok ms => Except.ok (m :: ms)

/-- `create_map` (dashboard.py:96-115): the empty dataset gives the fixed
default map (center `[0, 0]`, zoom 2); otherwise the map is centered at
the mean coordinates at zoom 14 with one marker per row, and raises if any
row's date is NaT. -/
def create_map (df : List Row) : Except String MapSpec :=
  if df.isEmpty then
    Except.ok { location := (0, 0), zoom_start := 2, markers := [] }
  else
    match buildMarkers df with
    | Except.error e => Except.error e
    | Except.ok markers =>
      Except.ok
        { location := (colMean (df.map Row.lat), colMean (df.map Row.long))
          zoom_start := 14
          markers := markers }

/-- The distinct values of a key column with their multiplicities, before
any ordering (the grouping stage shared by `value_counts` and
`groupby(...).size()`). -/
def countsBy (keys : List String) : List (String × Nat) :=
  keys.dedup.map (fun k => (k, keys.count k))

/-- `pd.Series.value_counts` ordering: descending by count. -/
def countDesc (p q : String × Nat) : Prop := q.2 ≤ p.2

instance : DecidableRel countDesc := fun p q => Nat.decLe q.2 p.2

instance : IsTotal (String × Nat) countDesc :=
  ⟨fun p q => (Nat.le_total q.2 p.2).imp id id⟩

instance : IsTrans (String × Nat) countDesc :=
  ⟨fun _ _ _ h h2 => Nat.le_trans h2 h⟩

/-- Lexicographic comparison of character lists by code point: the order
Python (and hence pandas) uses on strings. -/
def listLexLeb : List Char → List Char → Bool
  | [], _ => true
  | _ :: _, [] => false
  | a :: as, b :: bs =>
    if a.toNat < b.toNat then true
    else if b.toNat < a.toNat then false
    else listLexLeb as bs

/-- Python `<=` on strings: lexicographic by code point. -/
def strLeb (a b : String) : Bool := listLexLeb a.toList b.toList

/-- `groupby` ordering: ascending lexicographically by the string key. -/
def keyAsc (p q : String × Nat) : Prop := strLeb p.1 q.1 = true

instance : DecidableRel keyAsc := fun p q => instDecidableEqBool (strLeb p.1 q.1) true

theorem listLexLeb_total (a b : List Char) :
    listLexLeb a b = true ∨ listLexLeb b a = true := by
  induction a generalizing b with
  | nil => exact Or.inl rfl
  | cons x xs ih =>
    cases b with
    | nil => exact Or.inr rfl
    | cons y ys =>
      rcases Nat.lt_trichotomy x.toNat y.toNat with h | h | h
      · exact Or.inl (by simp [listLexLeb, h])
      · have hyx : ¬ y.toNat < x.toNat := by omega
        have hxy : ¬ x.toNat < y.toNat := by omega
        rcases ih ys with h2 | h2
        · exact Or.inl (by simp [listLexLeb, hxy, hyx, h2])
        · exact Or.inr (by simp [listLexLeb, hxy, hyx, h, h2])
      · exact Or.inr (by simp [listLexLeb, h])

theorem listLexLeb_trans (a b c : List Char) (hab : listLexLeb a b = true)
    (hbc : listLexLeb b c = true) : listLexLeb a c = true := by
  induction a generalizing b c with
  | nil => rfl
  | cons x xs ih =>
    cases b with
    | nil => simp [listLexLeb] at hab
    | cons y ys =>
      cases c with
      | nil => simp [listLexLeb] at hbc
      | cons z zs =>
        by_cases hxy : x.toNat < y.toNat <;> by_cases hyz : y.toNat < z.toNat
        · simp [listLexLeb, show x.toNat < z.toNat by omega]
        · simp only [listLexLeb, hyz, if_neg, if_false] at hbc
          by_cases hzy : z.toNat < y.toNat
          · simp [hzy] at hbc
          · have : y.toNat = z.toNat := by omega
            simp [listLexLeb, show x.toNat < z.toNat by omega]
        · simp only [listLexLeb, hxy, if_neg, if_false] at hab
          by_cases hyx : y.toNat < x.toNat
          · simp [hyx] at hab
          · have : x.toNat = y.toNat := by omega
            simp [listLexLeb, show x.toNat < z.toNat by omega]
        · simp only [listLexLeb, hxy, if_neg, if_false] at hab
          simp only [listLexLeb, hyz, if_neg, if_false] at hbc
          by_cases hyx : y.toNat < x.toNat
          · simp [hyx] at hab
          · by_cases hzy : z.toNat < y.toNat
            · simp [hzy] at hbc
            · have hxz : ¬ x.toNat < z.toNat := by omega
              have hzx : ¬ z.toNat < x.toNat := by omega
              simp only [hyx, if_neg, if_false] at hab
              simp only [hzy, if_neg, if_false] at hbc
              simp [listLexLeb, hxz, hzx, ih ys zs hab hbc]

instance : IsTotal (String × Nat) keyAsc :=
  ⟨fun p q => listLexLeb_total p.1.toList q.1.toList⟩

instance : IsTrans (String × Nat) keyAsc :=
  ⟨fun _ _ _ h h2 => listLexLeb_trans _ _ _ h h2⟩

/-- `df['cuadricula'].value_counts()` (dashboard.py:120): NaN keys are
dropped, distinct values are paired with their counts and sorted by count,
descending. -/
def value_counts (keys : List String) : List (String × Nat) :=
  List.insertionSort countDesc (countsBy keys)

/-- `df.groupby('Fecha_DM').size()` (dashboard.py:139): NaN keys are
dropped, distinct keys are paired with their group sizes and sorted
ascending by the key string (the default `sort=True`, lexicographic on
the `DD/MM` text). -/
def groupby_size (keys : List String) : List (String × Nat) :=
  List.insertionSort keyAsc (countsBy keys)

/-- A chart specification: the x series, the y series and the title. -/
structure ChartSpec where
  x : List String
  y : List Nat
  title : String
deriving DecidableEq, Repr

/-- `create_charts` (dashboard.py:118-165): the bar chart of tree counts
per grid cell and the temporal line chart of tree counts per `DD/MM` date
key. -/
def create_charts (df : List Row) : ChartSpec × ChartSpec :=
  let cc := value_counts (df.filterMap Row.cuadricula)
  let fig_cuadricula : ChartSpec :=
    { x := cc.map Prod.fst
      y := cc.map Prod.snd
      title := "Cantidad de arboles por cuadricula" }
  let dt := groupby_size (df.filterMap Row.Fecha_DM)
  let fig_temporal : ChartSpec :=
    { x := dt.map Prod.fst
      y := dt.map Prod.snd
      title := "Cantidad de arboles etiquetados por dia" }
  (fig_cuadricula, fig_temporal)

/-- The metric `st.metric(..., value=len(df_filtrado))` (dashboard.py:214). -/
def totalMetric (df : List Row) : Nat := df.length

/-- Chronological order on two `DD/MM` date keys: compare the month first,
then the day (the order the spec calls the natural chronological order of
the keys). -/
def chronoLE (a b : String) : Bool :=
  match splitOnChar '/' a.toList, splitOnChar '/' b.toList with
  | [d1, m1], [d2, m2] =>
    digitsToNat m1 < digitsToNat m2 ||
      (digitsToNat m1 = digitsToNat m2 && digitsToNat d1 ≤ digitsToNat d2)
  | _, _ => false

/-- The column set the loader requires (spec §6). -/
def expectedColumns : List String :=
  ["NombreEtiqueta", "cuadricula", "lat", "long", "Fecha", "Operador"]

/-- Modelled from the spec: the separator auto-detection variant of the
loader is not in src/ (src/dashboard.py fixes `sep=';'`); spec §4.1 and §6
describe attempting candidate separators `{',', ';', tab, space}` in a
fixed preference order. -/
def sepCandidates : List Char := [',', ';', '\t', ' ']

/-- Modelled from the spec: one separator attempt — split the header line
on the candidate and succeed exactly when every expected column is
present in the resulting field list. -/
def tryParseTable (sep : Char) (header : String) : Option (List String) :=
  let cols := pySplit sep header
  if expectedColumns.all (fun c => cols.contains c) then some cols else none

/-- Modelled from the spec: try the candidates in order, returning the
first separator that yields a table with the expected columns together
with its column list. -/
def tryFirstSep : List Char → String → Except String (Char × List String)
  | [], _ => Except.error "LoadError"
  | c :: cs, h =>
    match tryParseTable c h with
    | some cols => Except.ok (c, cols)
    | none => tryFirstSep cs h

/-- Modelled from the spec: `load` with separator auto-detection over the
fixed candidate order, failing with a `LoadError` when no candidate
succeeds. -/
def load_auto (header : String) : Except String (Char × List String) :=
  tryFirstSep sepCandidates header

theorem splitOnChar_ne_nil (sep : Char) : ∀ l : List Char, splitOnChar sep l ≠ []
  | [] => by simp [splitOnChar]
  | c :: cs => by
    have h := splitOnChar_ne_nil sep cs
    unfold splitOnChar
    cases hs : splitOnChar sep cs with
    | nil => exact absurd hs h
    | cons p ps => by_cases hc : c = sep <;> simp [hc]

theorem pySplit_length_pos (sep : Char) (s : String) : 1 ≤ (pySplit sep s).length := by
  unfold pySplit
  rw [List.length_map]
  cases hs : splitOnChar sep s.toList with
  | nil => exact absurd hs (splitOnChar_ne_nil sep s.toList)
  | cons p ps => simp

theorem countsBy_mem_snd (keys : List String) :
    ∀ p ∈ countsBy keys, p.2 = keys.count p.1 := by
  intro p hp
  unfold countsBy at hp
  rcases List.mem_map.mp hp with ⟨k, _, rfl⟩
  rfl

theorem countsBy_fst (keys : List String) :
    (countsBy keys).map Prod.fst = keys.dedup := by
  unfold countsBy
  rw [List.map_map]
  exact List.map_id _

theorem sum_counts (keys : List String) :
    ((countsBy keys).map Prod.snd).sum = keys.length := by
  unfold countsBy
  rw [List.map_map]
  have h := Multiset.toFinset_sum_count_eq (keys : Multiset String)
  simpa [Finset.sum, Multiset.toFinset, Function.comp] using h

theorem sorted_map_snd_sum (r : String × Nat → String × Nat → Prop) [DecidableRel r]
    (l : List (String × Nat)) :
    ((List.insertionSort r l).map Prod.snd).sum = (l.map Prod.snd).sum :=
  ((List.perm_insertionSort r l).map Prod.snd).sum_eq

theorem zip_map_fst_snd_pairs : ∀ l : List (String × Nat),
    (l.map Prod.fst).zip (l.map Prod.snd) = l := by
  intro l
  induction l with
  | nil => rfl
  | cons p ps ih => simp [List.zip_cons_cons, ih]

theorem filterMap_drop_none (f : Row → Option String) (df : List Row) :
    df.filterMap f = (df.filter (fun r => (f r).isSome)).filterMap f := by
  induction df with
  | nil => rfl
  | cons a t ih =>
    cases h : f a <;> simp [List.filterMap_cons, List.filter_cons, h, ih]

theorem filter_filter_and (p q : Row → Bool) (l : List Row) :
    (l.filter p).filter q = l.filter (fun a => p a && q a) := by
  rw [List.filter_filter]
  exact List.filter_congr (fun a _ => by rw [Bool.and_comm])

theorem apply_filters_subset (df : List Row) (gs : List String) (d : Option String) :
    ∀ r ∈ apply_filters df gs d, r ∈ df := by
  intro r hr
  unfold apply_filters at hr
  by_cases hgs : gs.isEmpty <;> by_cases hd : strTruthy d <;>
    simp [hgs, hd, List.mem_filter] at hr <;>
    first
      | exact hr
      | exact hr.1

theorem length_filterMap_all_some {α β : Type} (f : α → Option β) (l : List α)
    (h : ∀ r ∈ l, (f r).isSome) : (l.filterMap f).length = l.length := by
  induction l with
  | nil => rfl
  | cons a t ih =>
    have ha := h a (List.mem_cons_self a t)
    cases hfa : f a with
    | none => rw [hfa] at ha; simp at ha
    | some b =>
      rw [List.filterMap_cons, hfa]
      simpa using ih (fun r hr => h r (List.mem_cons_of_mem a hr))

theorem buildMarkers_ok (df : List Row) (h : ∀ r ∈ df, r.Fecha.isSome) :
    ∃ ms, buildMarkers df = Except.ok ms ∧ ms.length = df.length ∧
      ms.map Marker.location = df.map (fun r => (r.lat, r.long)) := by
  induction df with
  | nil => exact ⟨[], rfl, rfl, rfl⟩
  | cons r rs ih =>
    have hr := h r (List.mem_cons_self r rs)
    rcases Option.isSome_iff_exists.mp hr with ⟨dt, hdt⟩
    rcases ih (fun q hq => h q (List.mem_cons_of_mem r hq)) with ⟨ms, hms, hlen, hloc⟩
    refine ⟨{ location := (r.lat, r.long),
              popup := "Etiqueta: " ++ fmtOptStr r.NombreEtiqueta ++
                "<br>Cuadricula: " ++ fmtOptStr r.cuadricula ++
                "<br>Fecha: " ++ fmtDMY dt,
              tooltip := r.NombreEtiqueta } :: ms, ?_, ?_, ?_⟩
    · simp [buildMarkers, rowMarker, hdt, hms]
    · simpa using hlen
    · simpa using hloc

/-- Example row: grid cell `G1`, valid date `01/01/2023`. -/
def rawG1 : RawRow :=
  ⟨some "A,B", some "G1", some "40,0", some "-3,0", some "01/01/2023", some "Op1"⟩

/-- Example row: grid cell `G2`, valid date `02/01/2023` (January). -/
def rawG2 : RawRow :=
  ⟨some "C", some "G2", some "41,0", some "-3,1", some "02/01/2023", some "Op2"⟩

/-- Example row: valid date `01/05/2023` (May). -/
def rawMay : RawRow :=
  ⟨some "D", some "G1", some "40,5", some "-3,2", some "01/05/2023", some "Op1"⟩

/-- Example row: malformed date `31/13/2023` (month 13) with valid
coordinates. -/
def rawBadDate : RawRow :=
  ⟨some "E", some "G3", some "40,1", some "-3,3", some "31/13/2023", some "Op2"⟩

/-- Example row: date with a time suffix. -/
def rawTimeSuffix : RawRow :=
  ⟨some "F", some "G1", some "40,2", some "-3,4", some "01/01/2023 10:00:00", some "Op1"⟩

/-- A tab-delimited header containing no commas or semicolons. -/
def tabHeader : String :=
  "NombreEtiqueta\tcuadricula\tlat\tlong\tFecha\tOperador"

/-- The comma-delimited equivalent of `tabHeader`. -/
def commaHeader : String :=
  "NombreEtiqueta,cuadricula,lat,long,Fecha,Operador"

/-- C6: `apply_filters` with the empty grid selection and the null date
key returns the dataset unchanged — same rows, same order, same column
values (dashboard.py:168-174: both `if` guards are falsy). -/
theorem C6_noop_filter (df : List Row) : apply_filters df [] none = df := rfl

/-- C9: every row of a successfully loaded dataset has non-null latitude
and longitude — rows whose coordinate coercion failed are dropped by
`dropna(subset=['lat', 'long'])` (dashboard.py:89) — and `apply_filters`
preserves the invariant on every output it produces. -/
theorem C9_coords_invariant (raws : List RawRow) (df : List Row)
    (h : load_data raws = some df) :
    (∀ r ∈ df, r.lat.isSome ∧ r.long.isSome) ∧
    ∀ gs d, ∀ r ∈ apply_filters df gs d, r.lat.isSome ∧ r.long.isSome := by
  have hmain : ∀ r ∈ df, r.lat.isSome ∧ r.long.isSome := by
    intro r hr
    unfold load_data at h
    split at h
    · cases Option.some.inj h
      have hp := List.of_mem_filter hr
      have hp2 := Bool.and_eq_true_iff.mp hp
      exact ⟨hp2.1, hp2.2⟩
    · exact absurd h (by simp)
  exact ⟨hmain, fun gs d r hr => hmain r (apply_filters_subset df gs d r hr)⟩

theorem C9_coords_invariant_witness :
    load_data [rawG1] = some [mkRow rawG1] ∧
    ((∀ r ∈ [mkRow rawG1], r.lat.isSome ∧ r.long.isSome) ∧
      ∀ gs d, ∀ r ∈ apply_filters [mkRow rawG1] gs d,
        r.lat.isSome ∧ r.long.isSome) :=
  ⟨rfl, C9_coords_invariant [rawG1] [mkRow rawG1] rfl⟩

/-- C10: for every row whose `NombreEtiqueta` is a non-null string, the
derived `Etiquetas` is the comma-split of that string, is non-empty, and
the derived `Cantidad_Etiquetas` equals its length, which is at least 1
(dashboard.py:86-87). -/
theorem C10_label_count (r : RawRow) (s : String) (h : r.NombreEtiqueta = some s) :
    (mkRow r).Etiquetas = some (pySplit ',' s) ∧
    (mkRow r).Cantidad_Etiquetas = some (pySplit ',' s).length ∧
    pySplit ',' s ≠ [] ∧ 1 ≤ (pySplit ',' s).length := by
  refine ⟨by simp [mkRow, h], by simp [mkRow, h], ?_, pySplit_length_pos ',' s⟩
  have hlen := pySplit_length_pos ',' s
  intro hnil
  rw [hnil] at hlen
  simp at hlen

theorem C10_label_count_witness :
    rawG1.NombreEtiqueta = some "A,B" ∧
    ((mkRow rawG1).Etiquetas = some (pySplit ',' "A,B") ∧
     (mkRow rawG1).Cantidad_Etiquetas = some (pySplit ',' "A,B").length ∧
     pySplit ',' "A,B" ≠ [] ∧ 1 ≤ (pySplit ',' "A,B").length) :=
  ⟨rfl, C10_label_count rawG1 "A,B" rfl⟩

/-- C1: counterexample — for the non-null but empty date key `some ""`,
`apply_filters` skips the date condition entirely (`if fecha_seleccionada:`
is falsy on the empty string), returning a row whose `Fecha_DM` is
`"01/01" ≠ ""`; the claim demands that only rows with `date_key = d` be
returned for every non-null `d`. -/
theorem C1_counterexample :
    apply_filters [mkRow rawG1] ["G1"] (some "") = [mkRow rawG1] ∧
    (mkRow rawG1).Fecha_DM = some "01/01" ∧ "01/01" ≠ "" := by
  refine ⟨rfl, rfl, by decide⟩

/-- C1 (amended): for every non-empty grid selection and every non-null
AND non-empty date key, `apply_filters` returns exactly the rows
satisfying both conditions, in their original relative order; an empty
selection imposes no grid constraint, and a null (or empty, by Python
truthiness) date key imposes no date constraint. -/
theorem C1_filters_conjunctive (df : List Row) (gs : List String) (s : String)
    (hgs : gs ≠ []) (hs : s ≠ "") :
    apply_filters df gs (some s) =
      df.filter (fun r => cuadriculaIsin gs r && fechaDMEq s r) ∧
    apply_filters df [] (some s) = df.filter (fun r => fechaDMEq s r) ∧
    apply_filters df gs none = df.filter (cuadriculaIsin gs) := by
  have hgs2 : gs.isEmpty = false := by
    cases gs with
    | nil => exact absurd rfl hgs
    | cons a t => rfl
  have hs2 : s.isEmpty = false := by
    cases hse : s.isEmpty
    · rfl
    · exact absurd ((String.isEmpty_iff s).mp hse) hs
  refine ⟨?_, ?_, ?_⟩
  · unfold apply_filters
    simp only [hgs2, strTruthy, hs2, Bool.not_false, if_true, Option.getD_some]
    exact filter_filter_and _ _ _
  · unfold apply_filters
    simp [strTruthy, hs2]
  · unfold apply_filters
    simp [hgs2, strTruthy]

theorem C1_filters_conjunctive_witness :
    (["G1"] ≠ ([] : List String)) ∧ ("01/01" ≠ "") ∧
    (apply_filters [mkRow rawG1, mkRow rawG2] ["G1"] (some "01/01") =
      [mkRow rawG1, mkRow rawG2].filter
        (fun r => cuadriculaIsin ["G1"] r && fechaDMEq "01/01" r) ∧
     apply_filters [mkRow rawG1, mkRow rawG2] [] (some "01/01") =
      [mkRow rawG1, mkRow rawG2].filter (fun r => fechaDMEq "01/01" r) ∧
     apply_filters [mkRow rawG1, mkRow rawG2] ["G1"] none =
      [mkRow rawG1, mkRow rawG2].filter (cuadriculaIsin ["G1"])) :=
  ⟨by decide, by decide,
    C1_filters_conjunctive [mkRow rawG1, mkRow rawG2] ["G1"] "01/01"
      (by decide) (by decide)⟩

/-- C2: counterexample — the code parses with the exact format `%d/%m/%Y`
(dashboard.py:85), so a date carrying a time suffix does NOT parse (the
row's date is null), while the claim says the format optionally allows a
`HH:MM:SS[,ffffff]` suffix; the bare date parses fine. -/
theorem C2_counterexample :
    (mkRow rawTimeSuffix).Fecha = none ∧
    rawTimeSuffix.Fecha = some "01/01/2023 10:00:00" ∧
    parseDateDMY "01/01/2023" = some ⟨1, 1, 2023⟩ := by decide

/-- C2 (amended): the loader parses the date field with the exact fixed
format DD/MM/YYYY (no time suffix accepted — a suffixed date is
unparseable); an unparseable date yields a null date and a null
`Fecha_DM`, the row is retained in the loaded dataset (only null
coordinates drop rows), and the temporal chart is unchanged when rows
with a null date key are removed — such rows contribute to no bucket. -/
theorem C2_null_date_retained (raws : List RawRow) (df : List Row)
    (hload : load_data raws = some df)
    (r : RawRow) (hr : r ∈ raws) (hbad : r.Fecha.bind parseDateDMY = none)
    (hlat : (mkRow r).lat.isSome) (hlong : (mkRow r).long.isSome) :
    (mkRow r).Fecha = none ∧ (mkRow r).Fecha_DM = none ∧ mkRow r ∈ df ∧
    (create_charts df).2 =
      (create_charts (df.filter (fun q => q.Fecha_DM.isSome))).2 := by
  refine ⟨by simp [mkRow, hbad], by simp [mkRow, hbad], ?_, ?_⟩
  · unfold load_data at hload
    split at hload
    · cases Option.some.inj hload
      exact List.mem_filter_of_mem (List.mem_map_of_mem mkRow hr)
        (by simp [hlat, hlong])
    · exact absurd hload (by simp)
  · have hK := filterMap_drop_none Row.Fecha_DM df
    simp only [create_charts]
    rw [← hK]

theorem C2_null_date_retained_witness :
    load_data [rawBadDate] = some [mkRow rawBadDate] ∧
    rawBadDate.Fecha.bind parseDateDMY = none ∧
    ((mkRow rawBadDate).Fecha = none ∧ (mkRow rawBadDate).Fecha_DM = none ∧
      mkRow rawBadDate ∈ [mkRow rawBadDate] ∧
      (create_charts [mkRow rawBadDate]).2 =
        (create_charts ([mkRow rawBadDate].filter
          (fun q => q.Fecha_DM.isSome))).2) :=
  ⟨rfl, by decide,
    C2_null_date_retained [rawBadDate] [mkRow rawBadDate] rfl rawBadDate
      (List.mem_singleton.mpr rfl) (by decide) (by decide) (by decide)⟩

/-- C3: the auto-detecting loader tries the candidate separators in the
fixed order `,` `;` tab space, fails with a `LoadError` exactly when every
candidate fails, and on a tab-delimited header with no commas or
semicolons the comma and semicolon attempts fail and the tab attempt
succeeds, producing the same schema as the comma-delimited equivalent. -/
theorem C3_separator_autodetect :
    (∀ h : String, (∀ c ∈ sepCandidates, tryParseTable c h = none) →
        load_auto h = Except.error "LoadError") ∧
    (∀ h : String, ∀ cols : List String,
        tryParseTable ',' h = none → tryParseTable ';' h = none →
        tryParseTable '\t' h = some cols →
        load_auto h = Except.ok ('\t', cols)) ∧
    tryParseTable ',' tabHeader = none ∧
    tryParseTable ';' tabHeader = none ∧
    load_auto tabHeader = Except.ok ('\t', expectedColumns) ∧
    load_auto commaHeader = Except.ok (',', expectedColumns) := by
  refine ⟨?_, ?_, by decide, by decide, rfl, rfl⟩
  · intro h hall
    have h1 := hall ',' (by simp [sepCandidates])
    have h2 := hall ';' (by simp [sepCandidates])
    have h3 := hall '\t' (by simp [sepCandidates])
    have h4 := hall ' ' (by simp [sepCandidates])
    simp [load_auto, sepCandidates, tryFirstSep, h1, h2, h3, h4]
  · intro h cols h1 h2 h3
    simp [load_auto, sepCandidates, tryFirstSep, h1, h2, h3]

theorem C3_separator_autodetect_witness :
    (∀ c ∈ sepCandidates, tryParseTable c "xyz" = none) ∧
    load_auto "xyz" = Except.error "LoadError" :=
  ⟨by decide, C3_separator_autodetect.1 "xyz" (by decide)⟩

/-- C4: counterexample — `groupby('Fecha_DM')` sorts the `DD/MM` strings
lexicographically, day first: for the dataset with dates 02/01 (January)
and 01/05 (May) the buckets come out as `["01/05", "02/01"]`, although
chronologically 02/01 precedes 01/05 — the claimed natural chronological
order is violated. -/
theorem C4_counterexample :
    (create_charts [mkRow rawG2, mkRow rawMay]).2.x = ["01/05", "02/01"] ∧
    chronoLE "02/01" "01/05" = true ∧ chronoLE "01/05" "02/01" = false := by
  decide

/-- C4 (amended): the temporal chart has one bucket per distinct
`Fecha_DM` key of the filtered dataset, ordered lexicographically (by
code point, day first) on the `DD/MM` string — chronological only within
a single month — with each bucket counting the rows carrying that key,
and two different years sharing a `DD/MM` merge into a single bucket. -/
theorem C4_buckets_lex (df : List Row) :
    ((create_charts df).2.x).Pairwise (fun a b => strLeb a b = true) ∧
    (∀ k, k ∈ (create_charts df).2.x ↔ k ∈ df.filterMap Row.Fecha_DM) ∧
    (∀ p ∈ ((create_charts df).2.x).zip ((create_charts df).2.y),
      p.2 = (df.filterMap Row.Fecha_DM).count p.1) ∧
    (∀ d m y1 y2 : Nat, dateKeyOf ⟨d, m, y1⟩ = dateKeyOf ⟨d, m, y2⟩) := by
  have hx : (create_charts df).2.x =
      (List.insertionSort keyAsc (countsBy (df.filterMap Row.Fecha_DM))).map
        Prod.fst := rfl
  have hy : (create_charts df).2.y =
      (List.insertionSort keyAsc (countsBy (df.filterMap Row.Fecha_DM))).map
        Prod.snd := rfl
  refine ⟨?_, ?_, ?_, fun d m y1 y2 => rfl⟩
  · rw [hx]
    exact (List.sorted_insertionSort keyAsc
      (countsBy (df.filterMap Row.Fecha_DM))).map
      Prod.fst (fun a b h => h)
  · intro k
    rw [hx, ((List.perm_insertionSort keyAsc
      (countsBy (df.filterMap Row.Fecha_DM))).map Prod.fst).mem_iff,
      countsBy_fst, List.mem_dedup]
  · intro p hp
    rw [hx, hy, zip_map_fst_snd_pairs] at hp
    exact countsBy_mem_snd (df.filterMap Row.Fecha_DM) p
      ((List.perm_insertionSort keyAsc
        (countsBy (df.filterMap Row.Fecha_DM))).mem_iff.mp hp)

theorem C4_buckets_lex_witness :
    (("01/05", 1) ∈ ((create_charts [mkRow rawG2, mkRow rawMay]).2.x).zip
        ((create_charts [mkRow rawG2, mkRow rawMay]).2.y)) ∧
    ((("01/05", 1) : String × Nat).2 =
      ([mkRow rawG2, mkRow rawMay].filterMap Row.Fecha_DM).count "01/05") :=
  ⟨by decide,
    (C4_buckets_lex [mkRow rawG2, mkRow rawMay]).2.2.1 ("01/05", 1) (by decide)⟩

/-- C5: the claim (and spec §7) promises that all downstream operations
are total once load succeeds, including on rows whose date is null; but
`create_map` formats `row['Fecha'].strftime('%d/%m/%Y')` unconditionally
(dashboard.py:108), and NaT does not support `strftime` — a loaded row
with an unparseable date and valid coordinates makes `create_map` raise
a `ValueError`. -/
theorem C5_create_map_raises_on_null_date :
    load_data [rawBadDate] = some [mkRow rawBadDate] ∧
    (mkRow rawBadDate).Fecha = none ∧
    create_map [mkRow rawBadDate] =
      Except.error "NaTType does not support strftime" :=
  ⟨rfl, rfl, rfl⟩

/-- C7: counterexample — a retained row with an unparseable date counts
in the displayed metric (`len(df_filtrado) = 1`) but appears in no bucket
of the temporal chart (its `Fecha_DM` is NaN and `groupby` drops NaN
keys), so the bucket sum is 0, not the row count. -/
theorem C7_counterexample :
    totalMetric [mkRow rawBadDate] = 1 ∧
    ((create_charts [mkRow rawBadDate]).2.y).sum = 0 := by decide

/-- C7 (amended): the bar-chart counts sum to the number of rows with a
non-null `cuadricula` and the temporal-chart counts sum to the number of
rows with a non-null `Fecha_DM`; each sum equals the displayed total
row count exactly when every row has the corresponding field non-null. -/
theorem C7_bucket_sums (df : List Row) :
    ((create_charts df).1.y).sum = (df.filterMap Row.cuadricula).length ∧
    ((create_charts df).2.y).sum = (df.filterMap Row.Fecha_DM).length ∧
    ((∀ r ∈ df, r.cuadricula.isSome) →
      ((create_charts df).1.y).sum = totalMetric df) ∧
    ((∀ r ∈ df, r.Fecha_DM.isSome) →
      ((create_charts df).2.y).sum = totalMetric df) := by
  have h1 : ((create_charts df).1.y).sum = (df.filterMap Row.cuadricula).length := by
    have hy : (create_charts df).1.y =
        (List.insertionSort countDesc
          (countsBy (df.filterMap Row.cuadricula))).map Prod.snd := rfl
    rw [hy, sorted_map_snd_sum, sum_counts]
  have h2 : ((create_charts df).2.y).sum = (df.filterMap Row.Fecha_DM).length := by
    have hy : (create_charts df).2.y =
        (List.insertionSort keyAsc
          (countsBy (df.filterMap Row.Fecha_DM))).map Prod.snd := rfl
    rw [hy, sorted_map_snd_sum, sum_counts]
  refine ⟨h1, h2, ?_, ?_⟩
  · intro hall
    rw [h1, length_filterMap_all_some Row.cuadricula df hall]
    rfl
  · intro hall
    rw [h2, length_filterMap_all_some Row.Fecha_DM df hall]
    rfl

theorem C7_bucket_sums_witness :
    (∀ r ∈ [mkRow rawG1], r.Fecha_DM.isSome) ∧
    ((create_charts [mkRow rawG1]).2.y).sum = totalMetric [mkRow rawG1] :=
  ⟨by decide, (C7_bucket_sums [mkRow rawG1]).2.2.2 (by decide)⟩

/-- C8: counterexample — for the non-empty filtered dataset consisting of
one retained row with a null date, no map specification exists at all:
`create_map` raises instead of producing the claimed marker list and
mean center. -/
theorem C8_counterexample :
    ([mkRow rawBadDate] ≠ []) ∧
    create_map [mkRow rawBadDate] =
      Except.error "NaTType does not support strftime" :=
  ⟨by decide, rfl⟩

/-- C8 (amended): for every non-empty filtered dataset whose rows all
have non-null dates (otherwise `create_map` raises, see the
counterexample) and non-null coordinates (the invariant of every loaded
dataset), the map has zoom 14, one marker per row located at the row's
coordinates, and is centered at the arithmetic means of the latitudes
and of the longitudes; the empty dataset gives the fixed default center
`[0, 0]` and zoom 2. -/
theorem C8_map_spec (df : List Row) (hne : df ≠ [])
    (hdates : ∀ r ∈ df, r.Fecha.isSome)
    (hcoords : ∀ r ∈ df, r.lat.isSome ∧ r.long.isSome) :
    (∃ m, create_map df = Except.ok m ∧
      m.zoom_start = 14 ∧
      m.markers.length = df.length ∧
      m.markers.map Marker.location = df.map (fun r => (r.lat, r.long)) ∧
      m.location.1 = (df.filterMap Row.lat).sum / (df.length : ℚ) ∧
      m.location.2 = (df.filterMap Row.long).sum / (df.length : ℚ)) ∧
    create_map [] = Except.ok ⟨(0, 0), 2, []⟩ := by
  rcases buildMarkers_ok df hdates with ⟨ms, hms, hlen, hloc⟩
  have hie : df.isEmpty = false := by
    cases df with
    | nil => exact absurd rfl hne
    | cons a t => rfl
  have hlatmap : (df.map Row.lat).filterMap id = df.filterMap Row.lat := by
    simp
  have hlongmap : (df.map Row.long).filterMap id = df.filterMap Row.long := by
    simp
  refine ⟨⟨{ location := (colMean (df.map Row.lat), colMean (df.map Row.long)),
             zoom_start := 14, markers := ms }, ?_, rfl, hlen, hloc, ?_, ?_⟩, rfl⟩
  · simp [create_map, hie, hms]
  · show colMean (df.map Row.lat) = (df.filterMap Row.lat).sum / (df.length : ℚ)
    unfold colMean
    rw [hlatmap]
    show (List.filterMap Row.lat df).sum /
      ((List.filterMap Row.lat df).length : ℚ) = _
    rw [length_filterMap_all_some Row.lat df (fun r hr => (hcoords r hr).1)]
  · show colMean (df.map Row.long) = (df.filterMap Row.long).sum / (df.length : ℚ)
    unfold colMean
    rw [hlongmap]
    show (List.filterMap Row.long df).sum /
      ((List.filterMap Row.long df).length : ℚ) = _
    rw [length_filterMap_all_some Row.long df (fun r hr => (hcoords r hr).2)]

theorem C8_map_spec_witness :
    ([mkRow rawG1] ≠ []) ∧
    ((∃ m, create_map [mkRow rawG1] = Except.ok m ∧
      m.zoom_start = 14 ∧
      m.markers.length = [mkRow rawG1].length ∧
      m.markers.map Marker.location = [mkRow rawG1].map (fun r => (r.lat, r.long)) ∧
      m.location.1 = ([mkRow rawG1].filterMap Row.lat).sum / (([mkRow rawG1] : List Row).length : ℚ) ∧
      m.location.2 = ([mkRow rawG1].filterMap Row.long).sum / (([mkRow rawG1] : List Row).length : ℚ)) ∧
     create_map [] = Except.ok ⟨(0, 0), 2, []⟩) :=
  ⟨by decide, C8_map_spec [mkRow rawG1] (by decide) (by decide) (by decide)⟩
